import Mathlib

/-!
A shallow embedding of `scrape_vtu_internships.py` (VTU InternYet internships
scraper) and proofs of its specified properties.

The DOM and the Selenium driver are modelled abstractly: each lookup a card or
page can answer is represented by its outcome (`Option String` for a located
element's text, `Bool` for the success of a click-and-wait interaction).  The
pure control flow of the Python functions is translated directly.
-/

namespace VtuScraper

/-- Outcome of the two lookups `get_text_safe` may try for one field of a card:
`css` is the result of the primary CSS-selector lookup (`some t` when an
element with text `t` is found, `none` when the lookup raises), `xpath`
likewise for the secondary XPath lookup. -/
structure FieldLookup where
  css : Option String
  xpath : Option String
deriving Repr, DecidableEq

/-- One candidate listing container, giving the lookup outcomes for each of the
seven fields extracted in `scrape_cards_on_page` (lines 111-117). -/
structure Card where
  title : FieldLookup
  company : FieldLookup
  location : FieldLookup
  mode : FieldLookup
  duration : FieldLookup
  fees : FieldLookup
  applyBy : FieldLookup
deriving Repr, DecidableEq

/-- An internship record: the dict built at lines 122-130 of the source, with
keys Title, Company, Location, Mode, Duration, Fees, Apply-by (the last one is
spelled `ApplyBy` here). -/
structure Record where
  Title : String
  Company : String
  Location : String
  Mode : String
  Duration : String
  Fees : String
  ApplyBy : String
deriving Repr, DecidableEq

/-- Python's `str.strip()`: drop whitespace from both ends. -/
def pyStrip (s : String) : String :=
  ⟨(s.data.dropWhile Char.isWhitespace).rdropWhile Char.isWhitespace⟩

/-- Python's `str.lower()`: lowercase each character. -/
def pyLower (s : String) : String :=
  ⟨s.data.map Char.toLower⟩

/-- Python's substring test `pat in s`. -/
def pyContains (s pat : String) : Bool :=
  decide (pat.data <:+: s.data)

/-- Function `get_text_safe` (lines 59-72): try the CSS lookup first and return the
found element's stripped text; on failure try the XPath lookup; on failure of
both return `""`.  The two arguments are the outcomes of the two lookups. -/
def get_text_safe (css xpath : Option String) : String :=
  match css with
  | some t => pyStrip t
  | none =>
    match xpath with
    | some t => pyStrip t
    | none => ""

/-- The per-card field extraction of `scrape_cards_on_page` (lines 111-130):
each of the seven fields is `get_text_safe` of that field's own two lookups. -/
def extractRecord (c : Card) : Record where
  Title := get_text_safe c.title.css c.title.xpath
  Company := get_text_safe c.company.css c.company.xpath
  Location := get_text_safe c.location.css c.location.xpath
  Mode := get_text_safe c.mode.css c.mode.xpath
  Duration := get_text_safe c.duration.css c.duration.xpath
  Fees := get_text_safe c.fees.css c.fees.xpath
  ApplyBy := get_text_safe c.applyBy.css c.applyBy.xpath

/-- The keyword test at line 134: `kw in Title.lower() or kw in Company.lower()`
where `kw = keyword.lower()`. -/
def keywordMatch (kw : String) (r : Record) : Bool :=
  pyContains (pyLower r.Title) (pyLower kw) || pyContains (pyLower r.Company) (pyLower kw)

/-- Function `scrape_cards_on_page` (lines 110-139) over an abstract list of discovered
card containers: per card, extract the seven fields; skip the card when both
Title and Company are empty (line 119); when a truthy keyword is supplied
(line 132: `if keyword:`, so `some ""` is no filter), skip records matching
neither field; append the rest in order. -/
def scrape_cards_on_page : List Card → Option String → List Record
  | [], _ => []
  | c :: cs, keyword =>
    let r := extractRecord c
    let rest := scrape_cards_on_page cs keyword
    if r.Title = "" ∧ r.Company = "" then rest
    else
      match keyword with
      | some kw => if kw ≠ "" ∧ keywordMatch kw r = false then rest else r :: rest
      | none => r :: rest

/-- A candidate pagination element, by the attributes and interactions
`click_next_page` reads from it: `cls` is `get_attribute("class")`,
`ariaDisabled` is `get_attribute("aria-disabled")`, `disabled` is
`get_attribute("disabled")` (each `none` when the attribute is absent),
`advanceOk` records whether clicking it (directly or via script) followed by
the staleness wait succeeds, and `text` is `el.text`. -/
structure Element where
  cls : Option String
  ariaDisabled : Option String
  disabled : Option String
  advanceOk : Bool
  text : Option String
deriving Repr, DecidableEq

/-- The disabled tests of `click_next_page` (lines 162-167): skip when
`aria-disabled` is truthy and lowercases to `"true"`, or the `disabled`
attribute is truthy, or `"disabled"` occurs in the lowercased class string
(`get_attribute("class") or ""`, line 159). -/
def isDisabledFlag (e : Element) : Bool :=
  (match e.ariaDisabled with
   | some a => pyLower a == "true"
   | none => false)
  || (match e.disabled with
      | some d => d ≠ ""
      | none => false)
  || pyContains (pyLower (e.cls.getD "")) "disabled"

/-- The inner element loop at lines 157-177: skip disabled-flagged elements;
otherwise attempt the click-and-wait interaction, returning true on success
and moving to the next element on any exception. -/
def tryNextElems : List Element → Bool
  | [] => false
  | e :: rest =>
    if isDisabledFlag e then tryNextElems rest
    else if e.advanceOk then true
    else tryNextElems rest

/-- The outer selector loop at lines 152-179: each selector contributes a list
of elements; the first selector whose element loop succeeds wins. -/
def tryNextSelectors : List (List Element) → Bool
  | [] => false
  | g :: gs => if tryNextElems g then true else tryNextSelectors gs

/-- The fallback loop at lines 181-193: over generic pagination links, take
those whose `(el.text or "").strip().lower()` contains `"next"` and attempt
a click-and-wait, continuing on failure.  Note: no disabled test here. -/
def tryPaginationElems : List Element → Bool
  | [] => false
  | e :: rest =>
    if pyContains (pyLower (pyStrip (e.text.getD ""))) "next" then
      if e.advanceOk then true else tryPaginationElems rest
    else tryPaginationElems rest

/-- The pagination-relevant view of a loaded page: the element lists the six
`next_selectors` would return, and the element list of the fallback
pagination query. -/
structure PageDom where
  nextGroups : List (List Element)
  paginationLinks : List Element
deriving Repr, DecidableEq

/-- Function `click_next_page` (lines 142-195): try the prioritized next-selectors,
then the generic pagination fallback; false when both phases fail. -/
def click_next_page (p : PageDom) : Bool :=
  if tryNextSelectors p.nextGroups then true else tryPaginationElems p.paginationLinks

/-- All candidate next-page elements a page offers, across both phases. -/
def allCandidates (p : PageDom) : List Element :=
  p.nextGroups.flatten ++ p.paginationLinks

/-- The site as `scrape_site` observes it: for each page index (0-based), the
card containers found there and the pagination-relevant DOM. -/
structure Site where
  pageCards : Nat → List Card
  pageDom : Nat → PageDom

/-- The loop-exit test at line 217, `if max_pages and page_num >= max_pages`:
Python truthiness makes `None` and `0` skip the test; otherwise compare the
1-based page number against the integer limit. -/
def maxPagesStop (maxPages : Option Int) (pageNum : Nat) : Bool :=
  match maxPages with
  | none => false
  | some m => m ≠ 0 && m ≤ (pageNum : Int)

/-- The `while True` loop of `scrape_site` (lines 207-227), with explicit fuel
since the Python loop need not terminate when no limit is set and every page
has a next control.  Arguments after the fuel: the 0-based index of the
current page and the accumulated records.  Returns `none` when the fuel runs
out (the Python loop is still running), otherwise the accumulated records and
the final `page_num`, i.e. the number of extraction passes performed. -/
def scrapeLoop (site : Site) (keyword : Option String) (maxPages : Option Int) :
    Nat → Nat → List Record → Option (List Record × Nat)
  | 0, _, _ => none
  | fuel + 1, pageIdx, acc =>
    let acc2 := acc ++ scrape_cards_on_page (site.pageCards pageIdx) keyword
    if maxPagesStop maxPages (pageIdx + 1) then some (acc2, pageIdx + 1)
    else if click_next_page (site.pageDom pageIdx) then
      scrapeLoop site keyword maxPages fuel (pageIdx + 1) acc2
    else some (acc2, pageIdx + 1)

/-- The scraping loop of `scrape_site`, started on the first page with no records
accumulated (lines 204-229). -/
def scrape_site (site : Site) (keyword : Option String) (maxPages : Option Int)
    (fuel : Nat) : Option (List Record × Nat) :=
  scrapeLoop site keyword maxPages fuel 0 []

/-- CSV encoding of one field as pandas `to_csv` writes it (QUOTE_MINIMAL):
quoted, with inner quotes doubled, when the field contains the delimiter, a
quote or a line break. -/
def csvField (s : String) : String :=
  if s.toList.any (fun c => c = ',' ∨ c = '"' ∨ c = '\n' ∨ c = '\r') then
    "\"" ++ s.replace "\"" "\"\"" ++ "\""
  else s

/-- One CSV data row: the seven fields in declaration order, comma-joined. -/
def csvRow (r : Record) : String :=
  String.intercalate ","
    [csvField r.Title, csvField r.Company, csvField r.Location, csvField r.Mode,
     csvField r.Duration, csvField r.Fees, csvField r.ApplyBy]

/-- The CSV header row: the field names in the dict-insertion order of
lines 122-130, which is the column order pandas derives from the records. -/
def csvHeader : String := "Title,Company,Location,Mode,Duration,Fees,Apply-by"

/-- The rows (header first) of the CSV file `df.to_csv(csv_path, index=False)`
writes at line 240. -/
def csvLines (rows : List Record) : List String :=
  csvHeader :: rows.map csvRow

/-- Function `save_results` (lines 234-245): with no rows, return without writing
anything (line 235-237); otherwise write the CSV and, when a JSON path was
given, also the records as JSON.  The result models the filesystem effect:
first component the CSV rows written (`none` = no write), second the record
list serialized to JSON (`none` = no write). -/
def save_results (rows : List Record) (jsonRequested : Bool) :
    Option (List String) × Option (List Record) :=
  if rows.isEmpty then (none, none)
  else (some (csvLines rows), if jsonRequested then some rows else none)

/-- Events on the browser session observed while running `scrape_site`:
an attempt to launch the driver, a successful launch, and a `driver.quit()`. -/
inductive DriverEvent where
  | launchAttempt
  | acquired
  | released
deriving Repr, DecidableEq

/-- Function `create_driver` (lines 40-56) as an event trace: a single launch attempt
that either yields a driver or raises; there is no retry logic. -/
def createDriver (launchOk : Bool) : Except String Unit × List DriverEvent :=
  if launchOk then
    (Except.ok (), [DriverEvent.launchAttempt, DriverEvent.acquired])
  else
    (Except.error "launch failure", [DriverEvent.launchAttempt])

/-- The session lifecycle of `scrape_site` (lines 198-231): `create_driver` is
called once, outside the `try`; if it raises, the exception propagates at once
and the `finally` block (which guards only the body) never runs.  If it
succeeds, the body runs and `driver.quit()` is executed exactly once by the
`finally`, whether the body returns records or raises; a body exception then
propagates.  `bodyOutcome` is the outcome of the `try` body. -/
def scrapeSiteLifecycle (launchOk : Bool) (bodyOutcome : Except String (List Record)) :
    Except String (List Record) × List DriverEvent :=
  match createDriver launchOk with
  | (Except.error e, tr) => (Except.error e, tr)
  | (Except.ok _, tr) => (bodyOutcome, tr ++ [DriverEvent.released])

/-! ### Lemmas about `scrape_cards_on_page` -/

/-- Every record in the output of `scrape_cards_on_page` comes from one of the
cards and passed the admission test of line 119. -/
theorem mem_scrape_cards {cards : List Card} {kw : Option String} {r : Record}
    (h : r ∈ scrape_cards_on_page cards kw) :
    ∃ c ∈ cards, r = extractRecord c ∧ ¬(r.Title = "" ∧ r.Company = "") := by
  induction cards with
  | nil => cases h
  | cons c cs ih =>
    simp only [scrape_cards_on_page] at h
    split at h
    · obtain ⟨c', hc', hr⟩ := ih h
      exact ⟨c', List.mem_cons_of_mem _ hc', hr⟩
    · next hadm =>
      have hkeep : ∀ hmem : r ∈ extractRecord c :: scrape_cards_on_page cs kw,
          ∃ c' ∈ c :: cs, r = extractRecord c' ∧ ¬(r.Title = "" ∧ r.Company = "") := by
        intro hmem
        rcases List.mem_cons.mp hmem with hr | hr
        · exact ⟨c, List.mem_cons_self _ _, hr, by rw [hr]; exact hadm⟩
        · obtain ⟨c', hc', hrr⟩ := ih hr
          exact ⟨c', List.mem_cons_of_mem _ hc', hrr⟩
      split at h
      · split at h
        · obtain ⟨c', hc', hr⟩ := ih h
          exact ⟨c', List.mem_cons_of_mem _ hc', hr⟩
        · exact hkeep h
      · exact hkeep h

/-- Conversely, a card whose extracted record passes both the admission test
and (when applicable) the keyword test contributes its record to the output. -/
theorem extract_mem_scrape_cards {cards : List Card} {kw : Option String} {c : Card}
    (hc : c ∈ cards) (hadm : ¬((extractRecord c).Title = "" ∧ (extractRecord c).Company = ""))
    (hkw : ∀ k, kw = some k → k ≠ "" → keywordMatch k (extractRecord c) = true) :
    extractRecord c ∈ scrape_cards_on_page cards kw := by
  induction cards with
  | nil => cases hc
  | cons c' cs ih =>
    rcases List.mem_cons.mp hc with rfl | hc'
    · cases kw with
      | none =>
        simp only [scrape_cards_on_page]
        rw [if_neg hadm]
        exact List.mem_cons_self _ _
      | some k =>
        simp only [scrape_cards_on_page]
        rw [if_neg hadm]
        by_cases hcond : k ≠ "" ∧ keywordMatch k (extractRecord c) = false
        · exact absurd (hkw k rfl hcond.1) (by simp [hcond.2])
        · rw [if_neg hcond]
          exact List.mem_cons_self _ _
    · have hrest := ih hc'
      cases kw with
      | none =>
        simp only [scrape_cards_on_page]
        by_cases hadm' : (extractRecord c').Title = "" ∧ (extractRecord c').Company = ""
        · rw [if_pos hadm']; exact hrest
        · rw [if_neg hadm']; exact List.mem_cons_of_mem _ hrest
      | some k =>
        simp only [scrape_cards_on_page]
        by_cases hadm' : (extractRecord c').Title = "" ∧ (extractRecord c').Company = ""
        · rw [if_pos hadm']; exact hrest
        · rw [if_neg hadm']
          by_cases hcond : k ≠ "" ∧ keywordMatch k (extractRecord c') = false
          · rw [if_pos hcond]; exact hrest
          · rw [if_neg hcond]; exact List.mem_cons_of_mem _ hrest

/-- Records failing the keyword test never appear in the output when a
non-empty keyword is supplied. -/
theorem keyword_holds_of_mem_scrape_cards {cards : List Card} {k : String} {r : Record}
    (hk : k ≠ "") (h : r ∈ scrape_cards_on_page cards (some k)) :
    keywordMatch k r = true := by
  induction cards with
  | nil => cases h
  | cons c cs ih =>
    simp only [scrape_cards_on_page] at h
    split at h
    · exact ih h
    · split at h
      · exact ih h
      · next hcond =>
        rcases List.mem_cons.mp h with rfl | hr
        · by_contra hmatch
          exact hcond ⟨hk, by simpa using hmatch⟩
        · exact ih hr

/-! ### The claims -/

/-- C1: every record emitted by `scrape_cards_on_page` has a non-empty Title
or a non-empty Company; containers yielding neither are excluded. -/
theorem emitted_records_have_title_or_company
    (cards : List Card) (kw : Option String) (r : Record)
    (h : r ∈ scrape_cards_on_page cards kw) :
    r.Title ≠ "" ∨ r.Company ≠ "" := by
  obtain ⟨c, _, _, hadm⟩ := mem_scrape_cards h
  exact not_and_or.mp hadm

/-- A concrete card: Title found by the CSS lookup, Company by the XPath
fallback, all other lookups failing. -/
def sampleCard : Card where
  title := ⟨some "Data Intern", none⟩
  company := ⟨none, some "Acme"⟩
  location := ⟨none, none⟩
  mode := ⟨none, none⟩
  duration := ⟨none, none⟩
  fees := ⟨none, none⟩
  applyBy := ⟨none, none⟩

/-- Witness for C1 at a concrete page: the one admitted record has a
non-empty Title or Company. -/
theorem emitted_records_have_title_or_company_witness :
    (⟨"Data Intern", "Acme", "", "", "", "", ""⟩ : Record).Title ≠ ""
      ∨ (⟨"Data Intern", "Acme", "", "", "", "", ""⟩ : Record).Company ≠ "" :=
  emitted_records_have_title_or_company [sampleCard] none _ (by decide)

/-- C2: with a non-empty keyword supplied, an admitted record is retained iff
the lowercased keyword occurs in the lowercased Title or Company; every
record of the output passes the test, and every admitted record passing it
is in the output. -/
theorem keyword_filter_iff (cards : List Card) (k : String) (hk : k ≠ "") :
    (∀ r ∈ scrape_cards_on_page cards (some k), keywordMatch k r = true)
    ∧ (∀ c ∈ cards, ¬((extractRecord c).Title = "" ∧ (extractRecord c).Company = "") →
        keywordMatch k (extractRecord c) = true →
        extractRecord c ∈ scrape_cards_on_page cards (some k)) :=
  ⟨fun _r hr => keyword_holds_of_mem_scrape_cards hk hr,
   fun _c hc hadm hm =>
     extract_mem_scrape_cards hc hadm (fun k' hk' _ => by
       injection hk' with h
       exact h ▸ hm)⟩

/-- Witness for C2: on a concrete page with keyword "data", the admitted
matching record is retained. -/
theorem keyword_filter_iff_witness :
    extractRecord sampleCard ∈ scrape_cards_on_page [sampleCard] (some "data") :=
  (keyword_filter_iff [sampleCard] "data" (by decide)).2 sampleCard (by decide)
    (by decide) (by decide)

/-- C4: for a non-empty record list, the CSV written by `save_results` is the
header row followed by one row per record in the declared column order:
`N + 1` rows in total. -/
theorem csv_has_header_and_n_rows (rows : List Record) (j : Bool) (h : rows ≠ []) :
    (save_results rows j).1 = some (csvLines rows)
    ∧ csvLines rows = csvHeader :: rows.map csvRow
    ∧ (csvLines rows).length = rows.length + 1 := by
  refine ⟨?_, rfl, by simp [csvLines]⟩
  simp [save_results, h]

/-- Witness for C4 at one concrete record: two rows total, header first. -/
theorem csv_has_header_and_n_rows_witness :
    (save_results [extractRecord sampleCard] false).1
        = some (csvLines [extractRecord sampleCard])
    ∧ csvLines [extractRecord sampleCard]
        = csvHeader :: [extractRecord sampleCard].map csvRow
    ∧ (csvLines [extractRecord sampleCard]).length
        = [extractRecord sampleCard].length + 1 :=
  csv_has_header_and_n_rows [extractRecord sampleCard] false (by decide)

/-- C5: called with an empty record list, `save_results` writes neither the
CSV nor the JSON file (and, being total, does not raise). -/
theorem save_results_empty_no_write (j : Bool) : save_results [] j = (none, none) :=
  rfl

/-! ### Pagination lemmas -/

/-- A group consisting only of disabled-flagged elements yields no advance in
the primary phase. -/
theorem tryNextElems_eq_false_of_all_disabled {g : List Element}
    (h : ∀ e ∈ g, isDisabledFlag e = true) : tryNextElems g = false := by
  induction g with
  | nil => rfl
  | cons e rest ih =>
    simp only [tryNextElems]
    rw [if_pos (h e (List.mem_cons_self _ _))]
    exact ih fun x hx => h x (List.mem_cons_of_mem _ hx)

/-- The primary selector phase fails when every element it sees is
disabled-flagged. -/
theorem tryNextSelectors_eq_false_of_all_disabled {gs : List (List Element)}
    (h : ∀ e ∈ gs.flatten, isDisabledFlag e = true) : tryNextSelectors gs = false := by
  induction gs with
  | nil => rfl
  | cons g rest ih =>
    have hg : tryNextElems g = false :=
      tryNextElems_eq_false_of_all_disabled fun x hx =>
        h x (List.mem_flatten.mpr ⟨g, List.mem_cons_self _ _, hx⟩)
    have hr : tryNextSelectors rest = false :=
      ih fun x hx => by
        rcases List.mem_flatten.mp hx with ⟨l, hl, hxl⟩
        exact h x (List.mem_flatten.mpr ⟨l, List.mem_cons_of_mem _ hl, hxl⟩)
    simp [tryNextSelectors, hg, hr]

/-- The fallback phase fails when no link whose text contains "next" has a
successful click interaction. -/
theorem tryPaginationElems_eq_false {links : List Element}
    (h : ∀ e ∈ links, pyContains (pyLower (pyStrip (e.text.getD ""))) "next" = true →
        e.advanceOk = false) : tryPaginationElems links = false := by
  induction links with
  | nil => rfl
  | cons e rest ih =>
    simp only [tryPaginationElems]
    have hrest := ih fun x hx => h x (List.mem_cons_of_mem _ hx)
    by_cases ht : pyContains (pyLower (pyStrip (e.text.getD ""))) "next" = true
    · rw [if_pos ht, h e (List.mem_cons_self _ _) ht]
      exact hrest
    · rw [if_neg ht]
      exact hrest

/-- A next link that carries `aria-disabled="true"` yet whose click would
still transition the page, and that the fallback pagination query also
returns (its text is "Next"). -/
def disabledNextLink : Element where
  cls := some "next-link"
  ariaDisabled := some "true"
  disabled := none
  advanceOk := true
  text := some "Next"

/-- A page on which every next-page candidate, in both phases, is the
disabled-flagged link above. -/
def allDisabledPage : PageDom where
  nextGroups := [[disabledNextLink]]
  paginationLinks := [disabledNextLink]

/-- Counterexample to C3: on `allDisabledPage` every candidate element is
flagged disabled, yet `click_next_page` returns true — the fallback phase
(lines 181-193) clicks a link whose text contains "next" without re-checking
the disabled flags. -/
theorem click_next_page_disabled_counterexample :
    (allCandidates allDisabledPage).all isDisabledFlag = true
    ∧ click_next_page allDisabledPage = true := by
  decide

/-- C3 (amended): the primary selector phase skips every disabled-flagged
candidate, and `click_next_page` returns false when every primary-phase
candidate is disabled-flagged and no fallback pagination link whose stripped
lowercased text contains "next" has a successful click; the fallback phase
does not check the disabled flags. -/
theorem click_next_page_skips_disabled
    (e : Element) (rest : List Element) (p : PageDom)
    (hd : isDisabledFlag e = true)
    (h1 : ∀ x ∈ p.nextGroups.flatten, isDisabledFlag x = true)
    (h2 : ∀ x ∈ p.paginationLinks,
        pyContains (pyLower (pyStrip (x.text.getD ""))) "next" = true →
        x.advanceOk = false) :
    tryNextElems (e :: rest) = tryNextElems rest ∧ click_next_page p = false := by
  constructor
  · simp [tryNextElems, hd]
  · unfold click_next_page
    rw [tryNextSelectors_eq_false_of_all_disabled h1]
    simp only [Bool.false_eq_true, if_false]
    exact tryPaginationElems_eq_false h2

/-- An enabled pagination link whose text does not contain "next". -/
def prevLink : Element where
  cls := some "page-link"
  ariaDisabled := none
  disabled := none
  advanceOk := true
  text := some "Prev"

/-- A page whose only primary candidate is disabled and whose pagination
links contain no "next" text. -/
def noNextPage : PageDom where
  nextGroups := [[disabledNextLink]]
  paginationLinks := [prevLink]

/-- Witness for the amended C3 at a concrete page. -/
theorem click_next_page_skips_disabled_witness :
    tryNextElems [disabledNextLink, prevLink] = tryNextElems [prevLink]
    ∧ click_next_page noNextPage = false :=
  click_next_page_skips_disabled disabledNextLink [prevLink] noNextPage
    (by decide) (by decide) (by decide)

/-! ### Lemmas about the scraping loop -/

/-- With a positive limit `m`, the stop test of line 217 fires exactly when
the page number has reached the limit. -/
theorem maxPagesStop_pos_iff {m : Int} (hm : 0 < m) (n : Nat) :
    maxPagesStop (some m) n = true ↔ m.toNat ≤ n := by
  simp only [maxPagesStop, Bool.and_eq_true, decide_eq_true_eq, ne_eq]
  omega

/-- With a positive limit and enough fuel, the loop terminates, and the final
page number stays within the limit. -/
theorem scrapeLoop_terminates_of_pos_limit {site : Site} {kw : Option String} {m : Int}
    (hm : 0 < m) :
    ∀ (fuel pageIdx : Nat) (acc : List Record), pageIdx < m.toNat →
      m.toNat ≤ pageIdx + fuel →
      ∃ recs k, scrapeLoop site kw (some m) fuel pageIdx acc = some (recs, k)
        ∧ pageIdx < k ∧ k ≤ m.toNat := by
  intro fuel
  induction fuel with
  | zero => intro pageIdx acc h1 h2; omega
  | succ fuel ih =>
    intro pageIdx acc h1 h2
    simp only [scrapeLoop]
    by_cases hstop : maxPagesStop (some m) (pageIdx + 1) = true
    · rw [if_pos hstop]
      exact ⟨_, pageIdx + 1, rfl, Nat.lt_succ_self _, by omega⟩
    · have hlt : pageIdx + 1 < m.toNat := by
        rcases Nat.lt_or_ge (pageIdx + 1) m.toNat with h | h
        · exact h
        · exact absurd ((maxPagesStop_pos_iff hm _).mpr h) hstop
      rw [if_neg hstop]
      by_cases hnext : click_next_page (site.pageDom pageIdx) = true
      · rw [if_pos hnext]
        obtain ⟨recs, k, heq, hk1, hk2⟩ := ih (pageIdx + 1) _ hlt (by omega)
        exact ⟨recs, k, heq, by omega, hk2⟩
      · rw [if_neg hnext]
        exact ⟨_, pageIdx + 1, rfl, Nat.lt_succ_self _, by omega⟩

/-- The loop's final page number always exceeds the index it started from. -/
theorem scrapeLoop_snd_pos {site : Site} {kw : Option String} {mp : Option Int} :
    ∀ {fuel pageIdx : Nat} {acc recs : List Record} {k : Nat},
      scrapeLoop site kw mp fuel pageIdx acc = some (recs, k) → pageIdx < k := by
  intro fuel
  induction fuel with
  | zero => intro _ _ _ _ h; cases h
  | succ fuel ih =>
    intro pageIdx acc recs k h
    simp only [scrapeLoop] at h
    split at h
    · cases h; omega
    · split at h
      · exact Nat.lt_of_succ_lt (ih h)
      · cases h; omega

/-- Records accumulated before the loop runs stay at the front of its
output. -/
theorem scrapeLoop_acc_grows {site : Site} {kw : Option String} {mp : Option Int} :
    ∀ {fuel pageIdx : Nat} {acc recs : List Record} {k : Nat},
      scrapeLoop site kw mp fuel pageIdx acc = some (recs, k) →
      ∃ rest, recs = acc ++ rest := by
  intro fuel
  induction fuel with
  | zero => intro _ _ _ _ h; cases h
  | succ fuel ih =>
    intro pageIdx acc recs k h
    simp only [scrapeLoop] at h
    split at h
    · cases h
      exact ⟨_, rfl⟩
    · split at h
      · obtain ⟨rest, hrest⟩ := ih h
        exact ⟨_, by rw [hrest, List.append_assoc]⟩
      · cases h
        exact ⟨_, rfl⟩

/-- C6: a positive `--max-pages` limit `m` makes the scraping loop terminate
(given fuel at least `m`) after at most `m` extraction passes, whatever the
site's next controls look like; with `m = 1` exactly one pass occurs. -/
theorem max_pages_bounds_extraction_passes
    (site : Site) (kw : Option String) (m : Int) (fuel : Nat)
    (hm : 0 < m) (hfuel : m.toNat ≤ fuel) :
    scrape_site site kw (some m) fuel ≠ none
    ∧ ∀ recs k, scrape_site site kw (some m) fuel = some (recs, k) →
        1 ≤ k ∧ k ≤ m.toNat ∧ (m = 1 → k = 1) := by
  obtain ⟨recs, k, heq, hk1, hk2⟩ :=
    scrapeLoop_terminates_of_pos_limit hm fuel 0 [] (by omega) (by omega)
  refine ⟨by rw [scrape_site, heq]; exact Option.some_ne_none _, ?_⟩
  intro recs' k' heq'
  rw [scrape_site] at heq'
  rw [heq] at heq'
  obtain ⟨-, rfl⟩ : recs = recs' ∧ k = k' := by
    injection heq' with h
    exact ⟨congrArg Prod.fst h, congrArg Prod.snd h⟩
  exact ⟨hk1, hk2, fun h1 => by subst h1; omega⟩

/-- An enabled next link. -/
def enabledNextLink : Element where
  cls := some "next"
  ariaDisabled := none
  disabled := none
  advanceOk := true
  text := some "Next"

/-- A site every page of which holds one sample card and an enabled next
control. -/
def alwaysNextSite : Site where
  pageCards := fun _ => [sampleCard]
  pageDom := fun _ => ⟨[[enabledNextLink]], []⟩

/-- Witness for C6: with `--max-pages 1` on a site that always offers an
enabled next control, the loop stops after exactly one extraction pass. -/
theorem max_pages_bounds_extraction_passes_witness :
    scrape_site alwaysNextSite none (some 1) 1 ≠ none
    ∧ (1 ≤ 1 ∧ 1 ≤ (1 : Int).toNat ∧ ((1 : Int) = 1 → 1 = 1)) :=
  ⟨(max_pages_bounds_extraction_passes alwaysNextSite none 1 1 (by decide) (by decide)).1,
   (max_pages_bounds_extraction_passes alwaysNextSite none 1 1 (by decide) (by decide)).2
     (scrape_cards_on_page [sampleCard] none) 1 (by decide)⟩

/-- C9: `--max-pages 0` is indistinguishable from omitting the limit (the
truthiness test at line 217 ignores it), and any non-positive limit still
lets at least the first page be scraped: a terminating run made at least one
extraction pass and its output starts with the first page's records. -/
theorem max_pages_zero_behaves_like_none (site : Site) (kw : Option String) :
    (∀ fuel pageIdx acc, scrapeLoop site kw (some 0) fuel pageIdx acc
        = scrapeLoop site kw none fuel pageIdx acc)
    ∧ (∀ m : Int, m ≤ 0 → ∀ fuel recs k,
        scrape_site site kw (some m) fuel = some (recs, k) →
        1 ≤ k ∧ ∃ rest, recs = scrape_cards_on_page (site.pageCards 0) kw ++ rest) := by
  constructor
  · intro fuel
    induction fuel with
    | zero => intro _ _; rfl
    | succ fuel ih =>
      intro pageIdx acc
      simp only [scrapeLoop]
      have h0 : maxPagesStop (some 0) (pageIdx + 1) = false := by simp [maxPagesStop]
      have hn : maxPagesStop none (pageIdx + 1) = false := rfl
      rw [h0, hn]
      simp only [Bool.false_eq_true, if_false]
      by_cases hc : click_next_page (site.pageDom pageIdx) = true
      · rw [if_pos hc, if_pos hc]
        exact ih _ _
      · rw [if_neg hc, if_neg hc]
  · intro m _hm fuel recs k heq
    rw [scrape_site] at heq
    refine ⟨scrapeLoop_snd_pos heq, ?_⟩
    match fuel, heq with
    | fuel + 1, heq =>
      simp only [scrapeLoop] at heq
      split at heq
      · cases heq
        exact ⟨[], by simp⟩
      · split at heq
        · obtain ⟨rest, hrest⟩ := scrapeLoop_acc_grows heq
          exact ⟨rest, by simpa using hrest⟩
        · cases heq
          exact ⟨[], by simp⟩

/-- Witness for C9 at a concrete site: with limit `-2` the site is still
scraped once, and the `some 0` and `none` loops agree. -/
theorem max_pages_zero_behaves_like_none_witness :
    scrapeLoop alwaysNextSite none (some 0) 1 0 [] = scrapeLoop alwaysNextSite none none 1 0 []
    ∧ (1 ≤ 1 ∧ ∃ rest, scrape_cards_on_page [sampleCard] none
        = scrape_cards_on_page (alwaysNextSite.pageCards 0) none ++ rest) :=
  ⟨(max_pages_zero_behaves_like_none alwaysNextSite none).1 1 0 [],
   (max_pages_zero_behaves_like_none alwaysNextSite none).2 (-2) (by decide) 1
     (scrape_cards_on_page [sampleCard] none) 1 (by decide)⟩

/-- C7: field extraction falls back from the CSS lookup to the XPath lookup
and then to `""`; each of the seven fields of an extracted record is computed
from that field's own two lookups alone; and a card is kept (here: with no
keyword, on a one-card page) whenever Title or Company is non-empty, so no
other field's failure can discard it. -/
theorem field_lookup_fallback_independent :
    (∀ (t : String) (x : Option String), get_text_safe (some t) x = pyStrip t)
    ∧ (∀ t : String, get_text_safe none (some t) = pyStrip t)
    ∧ get_text_safe none none = ""
    ∧ (∀ c : Card,
        (extractRecord c).Title = get_text_safe c.title.css c.title.xpath
        ∧ (extractRecord c).Company = get_text_safe c.company.css c.company.xpath
        ∧ (extractRecord c).Location = get_text_safe c.location.css c.location.xpath
        ∧ (extractRecord c).Mode = get_text_safe c.mode.css c.mode.xpath
        ∧ (extractRecord c).Duration = get_text_safe c.duration.css c.duration.xpath
        ∧ (extractRecord c).Fees = get_text_safe c.fees.css c.fees.xpath
        ∧ (extractRecord c).ApplyBy = get_text_safe c.applyBy.css c.applyBy.xpath)
    ∧ (∀ c : Card, ¬((extractRecord c).Title = "" ∧ (extractRecord c).Company = "") →
        scrape_cards_on_page [c] none = [extractRecord c]) := by
  refine ⟨fun t x => rfl, fun t => rfl, rfl,
    fun c => ⟨rfl, rfl, rfl, rfl, rfl, rfl, rfl⟩, fun c hadm => ?_⟩
  simp only [scrape_cards_on_page]
  rw [if_neg hadm]

/-- A card whose title lookup succeeds only through the XPath fallback and
whose other six fields fail both lookups. -/
def titleOnlyCard : Card where
  title := ⟨none, some "Research Intern"⟩
  company := ⟨none, none⟩
  location := ⟨none, none⟩
  mode := ⟨none, none⟩
  duration := ⟨none, none⟩
  fees := ⟨none, none⟩
  applyBy := ⟨none, none⟩

/-- Witness for C7: six fields failing both lookups do not discard a card
whose Title was found. -/
theorem field_lookup_fallback_independent_witness :
    scrape_cards_on_page [titleOnlyCard] none = [extractRecord titleOnlyCard] :=
  field_lookup_fallback_independent.2.2.2.2 titleOnlyCard (by decide)

/-! ### Lemmas about stripped output -/

/-- A character list has no whitespace at either end. -/
def noEdgeWs (l : List Char) : Bool :=
  (l.head?.all fun c => !c.isWhitespace) && (l.getLast?.all fun c => !c.isWhitespace)

/-- A non-empty initial segment of a list starts with the same element. -/
theorem head?_eq_of_ne_nil_of_initial {α : Type} {B A : List α}
    (h : B <+: A) (hne : B ≠ []) : A.head? = B.head? := by
  obtain ⟨t, rfl⟩ := h
  cases B with
  | nil => exact absurd rfl hne
  | cons b B' => rfl

/-- Dropping whitespace from both ends leaves no whitespace at either end. -/
theorem noEdgeWs_strip (l : List Char) :
    noEdgeWs ((l.dropWhile Char.isWhitespace).rdropWhile Char.isWhitespace) = true := by
  have h1 : ((l.dropWhile Char.isWhitespace).rdropWhile Char.isWhitespace).getLast?.all
      (fun c => !c.isWhitespace) = true := by
    by_cases hne : (l.dropWhile Char.isWhitespace).rdropWhile Char.isWhitespace = []
    · rw [hne]; rfl
    · have hlast := List.rdropWhile_last_not Char.isWhitespace
        (l.dropWhile Char.isWhitespace) hne
      rw [List.getLast?_eq_getLast _ hne]
      simpa using hlast
  have h2 : ((l.dropWhile Char.isWhitespace).rdropWhile Char.isWhitespace).head?.all
      (fun c => !c.isWhitespace) = true := by
    by_cases hne : (l.dropWhile Char.isWhitespace).rdropWhile Char.isWhitespace = []
    · rw [hne]; rfl
    · have hh := head?_eq_of_ne_nil_of_initial
        ( List.rdropWhile_prefix Char.isWhitespace (l.dropWhile Char.isWhitespace)) hne
      have hmatch := List.head?_dropWhile_not Char.isWhitespace l
      rw [hh] at hmatch
      cases hB : ((l.dropWhile Char.isWhitespace).rdropWhile Char.isWhitespace).head? with
      | none => rfl
      | some b =>
        rw [hB] at hmatch
        simpa using hmatch
  rw [noEdgeWs, h1, h2]
  rfl

/-- What "whitespace-stripped" means for a field value: it is the `.strip()`
of some located element's text or the empty string, and in either case it
carries no leading or trailing whitespace. -/
def strippedValue (v : String) : Prop :=
  (v = "" ∨ ∃ t, v = pyStrip t) ∧ noEdgeWs v.data = true

/-- Function `get_text_safe` only produces stripped values. -/
theorem strippedValue_get_text_safe (a b : Option String) :
    strippedValue (get_text_safe a b) := by
  match a, b with
  | some t, _ => exact ⟨Or.inr ⟨t, rfl⟩, noEdgeWs_strip t.data⟩
  | none, some t => exact ⟨Or.inr ⟨t, rfl⟩, noEdgeWs_strip t.data⟩
  | none, none => exact ⟨Or.inl rfl, rfl⟩

/-- C10: every field of every record emitted by `scrape_cards_on_page` is
whitespace-stripped: the `.strip()` of a located element's text or `""`,
hence with no leading or trailing whitespace. -/
theorem emitted_fields_are_stripped
    (cards : List Card) (kw : Option String) (r : Record)
    (h : r ∈ scrape_cards_on_page cards kw) :
    strippedValue r.Title ∧ strippedValue r.Company ∧ strippedValue r.Location
    ∧ strippedValue r.Mode ∧ strippedValue r.Duration ∧ strippedValue r.Fees
    ∧ strippedValue r.ApplyBy := by
  obtain ⟨c, -, rfl, -⟩ := mem_scrape_cards h
  exact ⟨strippedValue_get_text_safe _ _, strippedValue_get_text_safe _ _,
    strippedValue_get_text_safe _ _, strippedValue_get_text_safe _ _,
    strippedValue_get_text_safe _ _, strippedValue_get_text_safe _ _,
    strippedValue_get_text_safe _ _⟩

/-- A card whose title text carries surrounding whitespace. -/
def paddedCard : Card where
  title := ⟨some "  ML Intern  ", none⟩
  company := ⟨none, none⟩
  location := ⟨none, none⟩
  mode := ⟨none, none⟩
  duration := ⟨none, none⟩
  fees := ⟨none, none⟩
  applyBy := ⟨none, none⟩

/-- Witness for C10 at a concrete card with padded element text. -/
theorem emitted_fields_are_stripped_witness :
    strippedValue (⟨"ML Intern", "", "", "", "", "", ""⟩ : Record).Title
    ∧ strippedValue (⟨"ML Intern", "", "", "", "", "", ""⟩ : Record).Company
    ∧ strippedValue (⟨"ML Intern", "", "", "", "", "", ""⟩ : Record).Location
    ∧ strippedValue (⟨"ML Intern", "", "", "", "", "", ""⟩ : Record).Mode
    ∧ strippedValue (⟨"ML Intern", "", "", "", "", "", ""⟩ : Record).Duration
    ∧ strippedValue (⟨"ML Intern", "", "", "", "", "", ""⟩ : Record).Fees
    ∧ strippedValue (⟨"ML Intern", "", "", "", "", "", ""⟩ : Record).ApplyBy :=
  emitted_fields_are_stripped [paddedCard] none _ (by decide)

/-- C8: the driver is released exactly as many times as it was acquired — once
on every path where the launch succeeded, whether the body returned or raised —
the launch is attempted exactly once (no retry), and a launch failure
propagates as the call's outcome with nothing acquired. -/
theorem browser_session_released_exactly_once
    (launchOk : Bool) (bodyOutcome : Except String (List Record)) :
    ((scrapeSiteLifecycle launchOk bodyOutcome).2.count DriverEvent.released
      = (scrapeSiteLifecycle launchOk bodyOutcome).2.count DriverEvent.acquired)
    ∧ (scrapeSiteLifecycle launchOk bodyOutcome).2.count DriverEvent.launchAttempt = 1
    ∧ (launchOk = false →
        scrapeSiteLifecycle launchOk bodyOutcome
          = (Except.error "launch failure", [DriverEvent.launchAttempt]))
    ∧ (launchOk = true →
        (scrapeSiteLifecycle launchOk bodyOutcome).1 = bodyOutcome
        ∧ (scrapeSiteLifecycle launchOk bodyOutcome).2.count DriverEvent.released = 1) := by
  cases launchOk <;>
    simp [scrapeSiteLifecycle, createDriver, List.count_cons, List.count_nil]

/-- Witness for C8: a body that raises still sees exactly one release, and
its exception is the call's outcome. -/
theorem browser_session_released_exactly_once_witness :
    (scrapeSiteLifecycle true (Except.error "extraction failure")).1
        = Except.error "extraction failure"
    ∧ (scrapeSiteLifecycle true (Except.error "extraction failure")).2.count
        DriverEvent.released = 1 :=
  (browser_session_released_exactly_once true (Except.error "extraction failure")).2.2.2 rfl

end VtuScraper
